import Mathlib

/-!
Verification development for TeleTextPlus (`src/app.py`), a Telegram-bot
webhook receiver with a payment pre-authorization path.

The Python code is shallowly embedded: each Flask handler becomes a pure
Lean function from an input (the parsed request body, mirroring the
dictionary probing of the source) and an environment (the outcomes of the
remote HTTP calls, which the code cannot control) to the list of outbound
calls it issues (its trace, in order) together with the HTTP response it
returns.  A Python `KeyError`/`TypeError` raised while probing the update
dictionary is modelled with `Except`: `Except.error ()` marks an exception
propagating to the enclosing `try`.
-/

namespace TeleTextPlus

/-- Possible outcomes of a remote gateway call (`requests.post` plus
`response.json()`), as distinguished by the source: the platform answered
`ok = true`, the platform answered `ok = false` (remote rejection), or an
exception was raised during the call. -/
inductive GatewayOutcome
  | ok
  | rejected
  | raised
deriving DecidableEq, Repr

/-- The `invoice_data` / `payload` dictionary built for `createInvoiceLink`
(lines 171-179) and `sendInvoice` (lines 279-288): title, description,
payload string, provider token (empty for Telegram Stars), currency,
the single price entry (label and amount), and the `is_flexible` flag. -/
structure InvoiceData where
  title : String
  description : String
  payload : String
  provider_token : String
  currency : String
  price_label : String
  amount : Int
  is_flexible : Bool
deriving DecidableEq, Repr

/-- An outbound HTTP call issued by the app, in the order the source
issues them.  `sendMessage` stands for `send_message_async` (the
fire-and-forget notifier wrapping `send_telegram_message`). -/
inductive Action
  | answerPreCheckoutQuery (query_id : String) (ok : Bool)
  | sendInvoice (chat_id : Int) (inv : InvoiceData)
  | sendMessage (chat_id : Int) (text : String)
  | createInvoiceLink (inv : InvoiceData)
deriving DecidableEq, Repr

/-- The `pre_checkout_query` sub-dictionary: `query['id']` raises when the
key is absent, hence the `Option`. -/
structure PreCheckoutQuery where
  id : Option String
deriving DecidableEq, Repr

/-- The `message['chat']` sub-dictionary (`chat['id']` raises when absent). -/
structure Chat where
  id : Option Int
deriving DecidableEq, Repr

/-- The `message['from']` sub-dictionary: `user['id']` raises when absent,
`user.get('first_name', 'User')` defaults. -/
structure FromUser where
  id : Option Int
  first_name : Option String
deriving DecidableEq, Repr

/-- The `message['successful_payment']` sub-dictionary; the three fields
read by the payment branch (lines 344-345) raise when absent. -/
structure SuccessfulPayment where
  total_amount : Option Int
  currency : Option String
  telegram_payment_charge_id : Option String
deriving DecidableEq, Repr

/-- The `update['message']` sub-dictionary, with exactly the fields the
webhook probes: `message['chat']`, `message.get('text', '')`,
`message['from']`, and `'successful_payment' in message`. -/
structure Message where
  chat : Option Chat
  text : Option String
  from_user : Option FromUser
  successful_payment : Option SuccessfulPayment
deriving DecidableEq, Repr

/-- The top-level update envelope, with the two fields the webhook probes:
`'pre_checkout_query' in update` and `'message' in update`. -/
structure Update where
  pre_checkout_query : Option PreCheckoutQuery
  message : Option Message
deriving DecidableEq, Repr

/-- The environment of a webhook invocation: the success of the
`answerPreCheckoutQuery` remote call (its return value is discarded by the
webhook, so it influences nothing), the outcome of the `sendInvoice`
remote call in the `/premium` handler, and the current whole-second
timestamp `int(time.time())`. -/
structure WebhookEnv where
  answerOk : Bool
  invoiceOutcome : GatewayOutcome
  now : Nat
deriving DecidableEq, Repr

/-- The invoice payload string `f"{product}_{user_id}_{int(time.time())}"`
(line 167 and, with `product = "premium_weekly"`, line 283). -/
def invoicePayload (product : String) (user_id : Int) (t : Nat) : String :=
  product ++ "_" ++ toString user_id ++ "_" ++ toString t

/-- Description text of the `/premium` invoice (line 282). -/
def premiumInvoiceDescription : String :=
  "Get unlimited access to all features for 1 week!\n✓ Unlimited conversions\n✓ Advanced tools\n✓ Priority support"

/-- The `payload` dictionary built by the `/premium` handler
(lines 279-288). -/
def premiumInvoiceData (user_id : Int) (t : Nat) : InvoiceData :=
  ⟨"TeleTextPlus Premium Weekly", premiumInvoiceDescription,
    invoicePayload "premium_weekly" user_id t, "", "XTR", "Premium Weekly",
    99, false⟩

/-- Welcome text sent by `/start` (lines 231-247); an f-string over the
sender display name. -/
def welcomeText (user_name : String) : String :=
  "👋 Welcome to TeleTextPlus, " ++ user_name ++ "!\n\nI\x27m a powerful text utility tool for all your needs.\n\n<b>Available Commands:</b>\n/start - Show this message\n/help - View all features\n/premium - Unlock premium features\n/paysupport - Payment FAQ & support\n\n<b>Premium Features (⭐):</b>\n• Unlimited text conversions\n• Advanced formatting tools\n• AI-powered suggestions\n• Priority support\n\nTap /premium to upgrade and get started!"

/-- Help text sent by `/help` (lines 252-271). -/
def helpText : String :=
  "<b>📚 Features & Help</b>\n\n<b>Available Commands:</b>\n/start - Welcome message\n/help - This help text\n/premium - Get premium access\n/paysupport - Payment help\n\n<b>🔐 Premium Features:</b>\n✓ Unlimited text conversions\n✓ Advanced formatting\n✓ AI suggestions\n✓ Priority support\n✓ Exclusive tools\n\n<b>💰 Pricing:</b>\n⭐ 99 Telegram Stars (~$1.99)\n⏱ Valid for 1 week\n\nReady to upgrade? Use /premium!"

/-- Fallback notice sent when the `/premium` invoice send fails
(lines 294 and 297). -/
def premiumFailText : String :=
  "❌ Error initiating payment. Please try again."

/-- Support text sent by `/paysupport` (lines 301-327). -/
def paysupportText : String :=
  "💳 <b>Payment Support</b>\n\n<b>What are Telegram Stars?</b>\nTelegram Stars are a secure in-app currency\n1 Star ≈ $0.02 USD\n\n<b>Payment Methods:</b>\n✓ Telegram Stars (fastest & easiest)\n✓ Credit/Debit Card\n✓ Apple Pay\n✓ Google Pay\n\n<b>Pricing & Duration:</b>\n⭐ 99 Stars = approximately $1.99\n⏱ Premium access for 1 week\n\n<b>Troubleshooting:</b>\n• Check your internet connection\n• Ensure your payment method is active\n• Try again if payment fails\n• Contact support if problems persist\n\n<b>Refunds:</b>\nRefunds are available within 48 hours of purchase.\nContact support for assistance.\n\nQuestions? Use /help"

/-- Generic acknowledgment sent by the default branch for any other
message text (line 332). -/
def defaultReplyText : String :=
  "Thanks for your message! 👋\n\nUse /help to see all features, or /premium to unlock premium access."

/-- Confirmation text sent by the successful-payment branch
(lines 350-362). -/
def paymentSuccessText : String :=
  "✅ <b>Payment Successful!</b>\n\n🎉 Welcome to TeleTextPlus Premium!\n\nYour premium membership is now active:\n⭐ 7 days of unlimited access\n🔓 All features unlocked\n⚡ Priority processing\n📱 Use the mini app for full power\n\nYour benefits start immediately!\n\nUse /help to get started!"

/-- The command dispatch of the message branch (lines 230-333): the
`if`/`elif` chain over the message text.  `/premium` always issues one
`sendInvoice` attempt and, when it fails (remote rejection or exception),
one fallback failure notice; any text not matching a command — including
the empty string left by `message.get('text', '')` — reaches the `else`
branch and gets the generic acknowledgment. -/
def handleCommand (chat_id user_id : Int) (user_name text : String)
    (env : WebhookEnv) : List Action :=
  if text = "/start" then
    [Action.sendMessage chat_id (welcomeText user_name)]
  else if text = "/help" then
    [Action.sendMessage chat_id helpText]
  else if text = "/premium" then
    match env.invoiceOutcome with
    | GatewayOutcome.ok =>
        [Action.sendInvoice chat_id (premiumInvoiceData user_id env.now)]
    | GatewayOutcome.rejected =>
        [Action.sendInvoice chat_id (premiumInvoiceData user_id env.now),
         Action.sendMessage chat_id premiumFailText]
    | GatewayOutcome.raised =>
        [Action.sendInvoice chat_id (premiumInvoiceData user_id env.now),
         Action.sendMessage chat_id premiumFailText]
  else if text = "/paysupport" then
    [Action.sendMessage chat_id paysupportText]
  else
    [Action.sendMessage chat_id defaultReplyText]

/-- The message branch of the webhook (lines 217-333): extract
`chat['id']`, `message.get('text', '')`, `message['from']['id']` and the
display name (each missing required key raising), cache the user
(process-local, no outbound call), then dispatch on the text. -/
def messageBranch (u : Update) (env : WebhookEnv) :
    List Action × Except Unit Unit :=
  match u.message with
  | none => ([], Except.ok ())
  | some m =>
    match m.chat with
    | none => ([], Except.error ())
    | some c =>
      match c.id with
      | none => ([], Except.error ())
      | some chat_id =>
        let text := m.text.getD ""
        match m.from_user with
        | none => ([], Except.error ())
        | some fu =>
          match fu.id with
          | none => ([], Except.error ())
          | some user_id =>
            let user_name := fu.first_name.getD "User"
            (handleCommand chat_id user_id user_name text env, Except.ok ())

/-- The successful-payment branch of the webhook (lines 336-365): when the
message carries a `successful_payment` sub-object, re-extract the chat and
user ids, read the three payment fields for logging (raising when absent),
and send the confirmation text to the same chat. -/
def paymentBranch (u : Update) : List Action × Except Unit Unit :=
  match u.message with
  | none => ([], Except.ok ())
  | some m =>
    match m.successful_payment with
    | none => ([], Except.ok ())
    | some p =>
      match m.chat with
      | none => ([], Except.error ())
      | some c =>
        match c.id with
        | none => ([], Except.error ())
        | some chat_id =>
          match m.from_user with
          | none => ([], Except.error ())
          | some fu =>
            match fu.id with
            | none => ([], Except.error ())
            | some _ =>
              match p.total_amount, p.currency,
                    p.telegram_payment_charge_id with
              | some _, some _, some _ =>
                  ([Action.sendMessage chat_id paymentSuccessText],
                   Except.ok ())
              | _, _, _ => ([], Except.error ())

/-- The body of the webhook `try` block (lines 205-367): the priority
branch answers a pre-checkout query with `ok = true` and returns at once
(line 214), before and instead of any other branch; otherwise the message
branch runs, then the payment branch, then the final success return (line
367).  An exception in any step aborts the remaining steps. -/
def webhookInner (u : Update) (env : WebhookEnv) :
    List Action × Except Unit Unit :=
  match u.pre_checkout_query with
  | some q =>
    match q.id with
    | none => ([], Except.error ())
    | some query_id =>
        ([Action.answerPreCheckoutQuery query_id true], Except.ok ())
  | none =>
    match messageBranch u env with
    | (acts, Except.error e) => (acts, Except.error e)
    | (acts, Except.ok _) =>
      match paymentBranch u with
      | (acts2, res) => (acts ++ acts2, res)

/-- A POST body delivered to `/webhook`: either something
`request.get_json()` cannot turn into a usable update dictionary (invalid
JSON, a non-dict value, …— every such case raises inside the `try`), or a
parsed update. -/
inductive WebhookBody
  | malformed
  | parsed (u : Update)
deriving DecidableEq, Repr

/-- The `/webhook` handler (lines 199-372): run the `try` body; every
return site — the early pre-checkout return, the final return, and the
top-level `except` — answers HTTP 200 with body `{"ok": true}` (the
response is modelled as status code and an is-ok-body flag). -/
def webhook (b : WebhookBody) (env : WebhookEnv) :
    List Action × (Nat × Bool) :=
  match b with
  | WebhookBody.malformed => ([], (200, true))
  | WebhookBody.parsed u =>
    match webhookInner u env with
    | (acts, Except.ok _) => (acts, (200, true))
    | (acts, Except.error _) => (acts, (200, true))

/-- Outcome of the `initData` user-extraction `try` block of `get_invoice`
(lines 156-164): `parse_qs` found no usable `user` entry, or the
URL-decoded JSON parsed to a user object with an optional `id` field, or
decoding/parsing raised (caught, logged, ignored). -/
inductive ParseUserResult
  | noUser
  | parsed (id : Option Int)
  | raised
deriving DecidableEq, Repr

/-- The user id the extraction block leaves behind: initialised to 0 (line
155), it only changes when a user object with an `id` field was decoded
(`user_info.get('id', 0)`, line 161); absence and every failure leave the
anonymous id 0. -/
def extractUserId (r : ParseUserResult) : Int :=
  match r with
  | ParseUserResult.noUser => 0
  | ParseUserResult.parsed none => 0
  | ParseUserResult.parsed (some i) => i
  | ParseUserResult.raised => 0

/-- Outcome of the `createInvoiceLink` remote call (lines 181-182): the
platform answered `ok` with a result URL, answered not-ok with an optional
`description`, or the call raised. -/
inductive CreateLinkResult
  | ok (url : String)
  | rejected (description : Option String)
  | raised
deriving DecidableEq, Repr

/-- The environment of a `get_invoice` invocation: what the user-identity
extraction of the (library-implemented) `parse_qs`/`unquote`/`json.loads`
pipeline yields on a given stripped `initData` string, the outcome of the
`createInvoiceLink` remote call, and the whole-second timestamp
`int(time.time())`. -/
structure GetInvoiceEnv where
  parseInit : String → ParseUserResult
  createResult : CreateLinkResult
  now : Nat

/-- The JSON body of a POST to `/get_invoice`, with the three fields the
handler reads via `.get`, each optional. -/
structure GetInvoiceData where
  initData : Option String
  product : Option String
  amount : Option Int
deriving DecidableEq, Repr

/-- A POST body delivered to `/get_invoice`: unparseable JSON (raises
inside the `try`), a falsy parsed value (`None` or an empty dictionary,
line 142), or a usable dictionary. -/
inductive GetInvoiceBody
  | malformed
  | noData
  | data (d : GetInvoiceData)
deriving DecidableEq, Repr

/-- A JSON response from `/get_invoice`: `{"invoice_url": …}` on success
or `{"error": …}` on failure. -/
inductive GetInvoiceResp
  | urlResp (invoice_url : String)
  | errResp (error : String)
deriving DecidableEq, Repr

/-- Python `str.strip()` with no argument: remove leading and trailing
whitespace. -/
def pyStrip (s : String) : String :=
  String.mk
    (((s.data.dropWhile Char.isWhitespace).reverse.dropWhile
        Char.isWhitespace).reverse)

/-- Python `str.title()` on one character stream: the first alphabetic
character of each alphabetic run is upper-cased, the rest lower-cased. -/
def pyTitleAux : List Char → Bool → List Char
  | [], _ => []
  | c :: cs, prevAlpha =>
    if c.isAlpha then
      (if prevAlpha then c.toLower else c.toUpper) :: pyTitleAux cs true
    else
      c :: pyTitleAux cs false

/-- Python `str.title()`. -/
def pyTitle (s : String) : String :=
  String.mk (pyTitleAux s.data false)

/-- Description text of the invoice link (line 173). -/
def invoiceLinkDescription : String :=
  "Unlock premium features! ✓ Unlimited ✓ Advanced ✓ Priority"

/-- The `invoice_data` dictionary built by `get_invoice` (lines 171-179):
the title derives from the product name, the payload from product, user id
and timestamp. -/
def invoiceLinkData (product : String) (amount : Int) (user_id : Int)
    (t : Nat) : InvoiceData :=
  ⟨"TeleTextPlus " ++ pyTitle (product.replace "_" " "),
    invoiceLinkDescription, invoicePayload product user_id t, "", "XTR",
    "Premium", amount, false⟩

/-- The response `get_invoice` gives for each outcome of the
`createInvoiceLink` call (lines 184-191): the URL with 200 on success,
`{"error": description-or-default}` with 400 on remote rejection, and the
top-level `except` answer `{"error": "Server error"}` with 500 when the
call raised. -/
def gatewayResponse (r : CreateLinkResult) : Nat × GetInvoiceResp :=
  match r with
  | CreateLinkResult.ok url => (200, GetInvoiceResp.urlResp url)
  | CreateLinkResult.rejected d =>
      (400, GetInvoiceResp.errResp (d.getD "Unknown error"))
  | CreateLinkResult.raised => (500, GetInvoiceResp.errResp "Server error")

/-- The `/get_invoice` handler (lines 134-195): reject a missing body
(400 `No data`), strip `initData` and reject it when empty (400
`Missing initData`) before any outbound call; otherwise extract the user
id, tolerating every parse failure by keeping the anonymous id 0, build
the invoice payload `product_userid_timestamp`, issue exactly one
`createInvoiceLink` call and translate its outcome into the response; any
exception yields 500 `Server error`. -/
def get_invoice (b : GetInvoiceBody) (env : GetInvoiceEnv) :
    List Action × (Nat × GetInvoiceResp) :=
  match b with
  | GetInvoiceBody.malformed =>
      ([], (500, GetInvoiceResp.errResp "Server error"))
  | GetInvoiceBody.noData => ([], (400, GetInvoiceResp.errResp "No data"))
  | GetInvoiceBody.data d =>
    let init_data := pyStrip (d.initData.getD "")
    let product := d.product.getD "premium_weekly"
    let amount := d.amount.getD 99
    if init_data = "" then
      ([], (400, GetInvoiceResp.errResp "Missing initData"))
    else
      let user_id := extractUserId (env.parseInit init_data)
      ([Action.createInvoiceLink (invoiceLinkData product amount user_id env.now)],
        gatewayResponse env.createResult)

/-! Concrete fixtures used by witnesses and counterexamples. -/

/-- A fixed webhook environment: approval call succeeds, invoice send is
rejected by the platform, timestamp 1700000000. -/
def envStd : WebhookEnv := ⟨true, GatewayOutcome.rejected, 1700000000⟩

/-- A message from chat 5, user 7 named Ann, text `/help`, no payment. -/
def msgHelp : Message := ⟨some ⟨some 5⟩, some "/help", some ⟨some 7, some "Ann"⟩, none⟩

/-- An envelope carrying only a pre-checkout query with id `q1`. -/
def updatePcq : Update := ⟨some ⟨some "q1"⟩, none⟩

/-- An envelope carrying both a pre-checkout query and a `/help` message. -/
def updateBoth : Update := ⟨some ⟨some "q1"⟩, some msgHelp⟩

/-- An envelope with neither recognized field. -/
def updateEmpty : Update := ⟨none, none⟩

/-! Helper lemmas about the command dispatch, shared across claims. -/

/-- The empty text (left by `message.get('text', '')`) reaches the default
branch of the command dispatch. -/
lemma handleCommand_empty (chat_id user_id : Int) (user_name : String)
    (env : WebhookEnv) :
    handleCommand chat_id user_id user_name "" env =
      [Action.sendMessage chat_id defaultReplyText] := rfl

/-- The `/premium` dispatch: one invoice-send attempt, plus the fallback
notice exactly when the attempt did not succeed. -/
lemma handleCommand_premium (chat_id user_id : Int) (user_name : String)
    (env : WebhookEnv) :
    handleCommand chat_id user_id user_name "/premium" env =
      (if env.invoiceOutcome = GatewayOutcome.ok then
        [Action.sendInvoice chat_id (premiumInvoiceData user_id env.now)]
      else
        [Action.sendInvoice chat_id (premiumInvoiceData user_id env.now),
         Action.sendMessage chat_id premiumFailText]) := by
  rcases env with ⟨a, io, n⟩
  cases io <;> rfl

/-! Claim theorems. -/

/-- C1: for every inbound envelope containing a pre-checkout query (which
per the data model carries its id), the dispatcher issues exactly one
approval call (`answer_pre_checkout_query` with `ok = true`) and nothing
else — in particular the approval precedes any message- or payment-branch
action — and the handler returns HTTP 200 `{"ok": true}` for every
environment, i.e. regardless of whether the approval call succeeds. -/
theorem c1_precheckout_approved_first (u : Update) (env : WebhookEnv)
    (q : PreCheckoutQuery) (query_id : String)
    (hq : u.pre_checkout_query = some q) (hid : q.id = some query_id) :
    webhook (WebhookBody.parsed u) env =
      ([Action.answerPreCheckoutQuery query_id true], (200, true)) := by
  simp [webhook, webhookInner, hq, hid]

/-- Witness for C1 at the concrete pre-checkout envelope, in an
environment where the approval call fails remotely. -/
theorem c1_witness :
    webhook (WebhookBody.parsed updatePcq) ⟨false, GatewayOutcome.ok, 1700000000⟩ =
      ([Action.answerPreCheckoutQuery "q1" true], (200, true)) :=
  c1_precheckout_approved_first updatePcq ⟨false, GatewayOutcome.ok, 1700000000⟩
    ⟨some "q1"⟩ "q1" rfl rfl

/-- C2 counterexample: an envelope carrying both a pre-checkout query and
a `/help` message produces only the approval call — the message branch is
never executed, contradicting the claim that it still runs before the
dispatcher returns. -/
theorem c2_counterexample :
    (webhook (WebhookBody.parsed updateBoth) envStd).1 =
      [Action.answerPreCheckoutQuery "q1" true] ∧
    Action.sendMessage 5 helpText ∉
      (webhook (WebhookBody.parsed updateBoth) envStd).1 := by
  exact ⟨rfl, by decide⟩

/-- C2 amended: pre-checkout handling suppresses the other branches — for
every envelope containing a pre-checkout query, the dispatcher returns
right after the approval call, and the trace contains nothing but that
call; the message and payment branches run only when no pre-checkout
query is present. -/
theorem c2_amended_precheckout_suppresses (u : Update) (env : WebhookEnv)
    (q : PreCheckoutQuery) (query_id : String)
    (hq : u.pre_checkout_query = some q) (hid : q.id = some query_id) :
    (webhook (WebhookBody.parsed u) env).1 =
      [Action.answerPreCheckoutQuery query_id true] := by
  simp [webhook, webhookInner, hq, hid]

/-- Witness for the amended C2 at the concrete two-field envelope. -/
theorem c2_witness :
    (webhook (WebhookBody.parsed updateBoth) envStd).1 =
      [Action.answerPreCheckoutQuery "q1" true] :=
  c2_amended_precheckout_suppresses updateBoth envStd ⟨some "q1"⟩ "q1" rfl rfl

/-- C3: for every POST body delivered to `/webhook` — well-formed,
malformed, or raising an internal exception in any handling step — the
handler answers HTTP 200 with body `{"ok": true}`. -/
theorem c3_webhook_always_ok (b : WebhookBody) (env : WebhookEnv) :
    (webhook b env).2 = (200, true) := by
  cases b with
  | malformed => rfl
  | parsed u =>
    rcases h : webhookInner u env with ⟨acts, res⟩
    cases res <;> simp [webhook, h]

/-- C7: for every envelope containing neither a `pre_checkout_query` field
nor a `message` field, the webhook returns success and issues zero
outbound calls. -/
theorem c7_unknown_envelope_no_effect (u : Update) (env : WebhookEnv)
    (h1 : u.pre_checkout_query = none) (h2 : u.message = none) :
    webhook (WebhookBody.parsed u) env = ([], (200, true)) := by
  simp [webhook, webhookInner, messageBranch, paymentBranch, h1, h2]

/-- Witness for C7 at the empty envelope. -/
theorem c7_witness :
    webhook (WebhookBody.parsed updateEmpty) envStd = ([], (200, true)) :=
  c7_unknown_envelope_no_effect updateEmpty envStd rfl rfl

/-- A message from chat 5, user 7 named Ann, with empty text. -/
def msgEmptyText : Message :=
  ⟨some ⟨some 5⟩, some "", some ⟨some 7, some "Ann"⟩, none⟩

/-- An envelope carrying only the empty-text message. -/
def updateEmptyText : Update := ⟨none, some msgEmptyText⟩

/-- C4 counterexample: a message whose text is empty falls into the
default `else` branch and receives the generic acknowledgment — one
outbound notification is sent, contradicting the claimed no-action. -/
theorem c4_counterexample :
    (webhook (WebhookBody.parsed updateEmptyText) envStd).1 =
      [Action.sendMessage 5 defaultReplyText] ∧
    (webhook (WebhookBody.parsed updateEmptyText) envStd).1 ≠ [] := by
  exact ⟨rfl, by decide⟩

/-- C4 amended: for every message whose text field is empty or absent, the
Command Interpreter takes the default branch and sends exactly the fixed
generic acknowledgment (rather than no action). -/
theorem c4_amended_empty_text_generic_ack (u : Update) (env : WebhookEnv)
    (m : Message) (c : Chat) (chat_id : Int) (fu : FromUser) (user_id : Int)
    (h0 : u.pre_checkout_query = none) (h1 : u.message = some m)
    (h2 : m.chat = some c) (h3 : c.id = some chat_id)
    (h4 : m.from_user = some fu) (h5 : fu.id = some user_id)
    (h6 : m.text = none ∨ m.text = some "")
    (h7 : m.successful_payment = none) :
    webhook (WebhookBody.parsed u) env =
      ([Action.sendMessage chat_id defaultReplyText], (200, true)) := by
  have htext : m.text.getD "" = "" := by
    rcases h6 with h | h <;> simp [h]
  simp [webhook, webhookInner, messageBranch, paymentBranch, h0, h1, h2,
    h3, h4, h5, h7, htext, handleCommand_empty]

/-- Witness for the amended C4 at the concrete empty-text envelope. -/
theorem c4_witness :
    webhook (WebhookBody.parsed updateEmptyText) envStd =
      ([Action.sendMessage 5 defaultReplyText], (200, true)) :=
  c4_amended_empty_text_generic_ack updateEmptyText envStd msgEmptyText
    ⟨some 5⟩ 5 ⟨some 7, some "Ann"⟩ 7 rfl rfl rfl rfl rfl rfl
    (Or.inr rfl) rfl

/-- C5: for every message with text `/premium`, the message branch makes
exactly one invoice-send attempt; the fallback failure notice is sent if
and only if that attempt did not succeed (remote rejection or exception),
never both branches and never zero actions; and the branch finishes with
`Except.ok` — no exception escapes to the dispatcher. -/
theorem c5_premium_one_attempt (u : Update) (env : WebhookEnv)
    (m : Message) (c : Chat) (chat_id : Int) (fu : FromUser) (user_id : Int)
    (h1 : u.message = some m) (h2 : m.chat = some c)
    (h3 : c.id = some chat_id) (h4 : m.from_user = some fu)
    (h5 : fu.id = some user_id) (h6 : m.text = some "/premium") :
    messageBranch u env =
      ((if env.invoiceOutcome = GatewayOutcome.ok then
          [Action.sendInvoice chat_id (premiumInvoiceData user_id env.now)]
        else
          [Action.sendInvoice chat_id (premiumInvoiceData user_id env.now),
           Action.sendMessage chat_id premiumFailText]),
        Except.ok ()) := by
  simp [messageBranch, h1, h2, h3, h4, h5, h6, handleCommand_premium]

/-- A message from chat 5, user 7 named Ann, text `/premium`. -/
def msgPremium : Message :=
  ⟨some ⟨some 5⟩, some "/premium", some ⟨some 7, some "Ann"⟩, none⟩

/-- Witness for C5 at the concrete `/premium` message, in an environment
where the invoice send is rejected by the platform. -/
theorem c5_witness :
    messageBranch ⟨none, some msgPremium⟩ envStd =
      ((if envStd.invoiceOutcome = GatewayOutcome.ok then
          [Action.sendInvoice 5 (premiumInvoiceData 7 envStd.now)]
        else
          [Action.sendInvoice 5 (premiumInvoiceData 7 envStd.now),
           Action.sendMessage 5 premiumFailText]),
        Except.ok ()) :=
  c5_premium_one_attempt ⟨none, some msgPremium⟩ envStd msgPremium
    ⟨some 5⟩ 5 ⟨some 7, some "Ann"⟩ 7 rfl rfl rfl rfl rfl rfl

/-- An extraction oracle that always finds user 12345 in `initData`. -/
def parseInitUser12345 : String → ParseUserResult :=
  fun _ => ParseUserResult.parsed (some 12345)

/-- First `get_invoice` request environment at second 1700000000. -/
def envSameSecondA : GetInvoiceEnv :=
  ⟨parseInitUser12345, CreateLinkResult.ok "https://t.me/invoice/aaa",
    1700000000⟩

/-- Second, distinct `get_invoice` request environment in the very same
second 1700000000. -/
def envSameSecondB : GetInvoiceEnv :=
  ⟨parseInitUser12345, CreateLinkResult.ok "https://t.me/invoice/bbb",
    1700000000⟩

/-- A `get_invoice` body for user 12345 buying `premium_weekly` for 99. -/
def bodySameSecond : GetInvoiceBody :=
  GetInvoiceBody.data ⟨some "user=u12345", some "premium_weekly", some 99⟩

/-- C6 (code bug): two invoice requests for the same user and product
issued within the same second construct the very same payload string
`premium_weekly_12345_1700000000` — the time-derived nonce has
whole-second granularity, so the payload is not unique per request. -/
theorem c6_same_second_payload_collision :
    (get_invoice bodySameSecond envSameSecondA).1 =
      [Action.createInvoiceLink
        (invoiceLinkData "premium_weekly" 99 12345 1700000000)] ∧
    (get_invoice bodySameSecond envSameSecondB).1 =
      [Action.createInvoiceLink
        (invoiceLinkData "premium_weekly" 99 12345 1700000000)] ∧
    (invoiceLinkData "premium_weekly" 99 12345 1700000000).payload =
      "premium_weekly_12345_1700000000" := by
  refine ⟨rfl, rfl, by decide⟩

/-- C8: for every POST to `/get_invoice` whose body is a falsy or
`initData`-less JSON value (absent field or empty after stripping), the
endpoint answers 400 with an error body and issues no outbound call. -/
theorem c8_missing_initdata_rejected (b : GetInvoiceBody)
    (env : GetInvoiceEnv)
    (h : b = GetInvoiceBody.noData ∨
      ∃ d, b = GetInvoiceBody.data d ∧ pyStrip (d.initData.getD "") = "") :
    (get_invoice b env).1 = [] ∧ (get_invoice b env).2.1 = 400 ∧
    ∃ e, (get_invoice b env).2.2 = GetInvoiceResp.errResp e := by
  rcases h with h | ⟨d, hb, hd⟩
  · subst h
    exact ⟨rfl, rfl, ⟨"No data", rfl⟩⟩
  · subst hb
    refine ⟨?_, ?_, ⟨"Missing initData", ?_⟩⟩ <;> simp [get_invoice, hd]

/-- An environment whose extraction oracle always raises. -/
def envParseRaises : GetInvoiceEnv :=
  ⟨fun _ => ParseUserResult.raised,
    CreateLinkResult.ok "https://t.me/invoice/ccc", 1700000000⟩

/-- Witness for C8 at a body whose `initData` is whitespace only. -/
theorem c8_witness :
    (get_invoice (GetInvoiceBody.data ⟨some "   ", none, none⟩)
        envParseRaises).1 = [] ∧
    (get_invoice (GetInvoiceBody.data ⟨some "   ", none, none⟩)
        envParseRaises).2.1 = 400 ∧
    ∃ e, (get_invoice (GetInvoiceBody.data ⟨some "   ", none, none⟩)
        envParseRaises).2.2 = GetInvoiceResp.errResp e :=
  c8_missing_initdata_rejected
    (GetInvoiceBody.data ⟨some "   ", none, none⟩) envParseRaises
    (Or.inr ⟨⟨some "   ", none, none⟩, rfl, by decide⟩)

/-- C9: for every POST to `/get_invoice` whose `initData` is present and
non-empty but whose user-identity extraction raises or finds no user
entry, the request is not failed: the user id degrades to the anonymous
id 0 and exactly one invoice-link call proceeds, the response being the
normal translation of the gateway outcome. -/
theorem c9_unparseable_initdata_anonymous (d : GetInvoiceData)
    (env : GetInvoiceEnv) (s : String)
    (h1 : d.initData = some s) (h2 : (pyStrip s) ≠ "")
    (h3 : env.parseInit (pyStrip s) = ParseUserResult.raised ∨
          env.parseInit (pyStrip s) = ParseUserResult.noUser) :
    get_invoice (GetInvoiceBody.data d) env =
      ([Action.createInvoiceLink
          (invoiceLinkData (d.product.getD "premium_weekly")
            (d.amount.getD 99) 0 env.now)],
        gatewayResponse env.createResult) := by
  have h0 : extractUserId (env.parseInit (pyStrip s)) = 0 := by
    rcases h3 with h | h <;> simp [h, extractUserId]
  simp [get_invoice, h1, h2, h0]

/-- Witness for C9 at a garbage `initData` whose decoding raises. -/
theorem c9_witness :
    get_invoice (GetInvoiceBody.data ⟨some "%%garbage", none, none⟩)
        envParseRaises =
      ([Action.createInvoiceLink
          (invoiceLinkData "premium_weekly" 99 0 1700000000)],
        gatewayResponse envParseRaises.createResult) :=
  c9_unparseable_initdata_anonymous ⟨some "%%garbage", none, none⟩
    envParseRaises "%%garbage" rfl (by decide) (Or.inl rfl)

/-- C10: for every POST to `/get_invoice` omitting the `product` and
`amount` fields (with a usable `initData`), the request is not rejected:
the invoice-link call is built with the defaults `premium_weekly` and 99
and whatever user id the extraction yields. -/
theorem c10_product_amount_defaults (d : GetInvoiceData)
    (env : GetInvoiceEnv) (s : String)
    (h1 : d.product = none) (h2 : d.amount = none)
    (h3 : d.initData = some s) (h4 : (pyStrip s) ≠ "") :
    get_invoice (GetInvoiceBody.data d) env =
      ([Action.createInvoiceLink
          (invoiceLinkData "premium_weekly" 99
            (extractUserId (env.parseInit (pyStrip s))) env.now)],
        gatewayResponse env.createResult) := by
  simp [get_invoice, h1, h2, h3, h4]

/-- Witness for C10 at a body holding only `initData`. -/
theorem c10_witness :
    get_invoice (GetInvoiceBody.data ⟨some "user=u12345", none, none⟩)
        envSameSecondA =
      ([Action.createInvoiceLink
          (invoiceLinkData "premium_weekly" 99
            (extractUserId (envSameSecondA.parseInit "user=u12345"))
            envSameSecondA.now)],
        gatewayResponse envSameSecondA.createResult) :=
  c10_product_amount_defaults ⟨some "user=u12345", none, none⟩
    envSameSecondA "user=u12345" rfl rfl rfl (by decide)

end TeleTextPlus
